import Mathlib

/-!
Verification of the warning-rule evaluation engine of the pillars taxonomy
dashboard.  The embedded code is `evaluate_rules` and its direct dependents
(`fetch_user_pref_map`, `list_rules`, `fetch_rule_conditions`) from
`pages/6_Warnings.py`.  The three database tables the engine reads
(`dbo.userNodePreference`, `dbo.warningRule`, `dbo.warningRuleCondition`)
are modelled as lists of rows inside a `Store`; each SQL SELECT becomes a
pure query over the store, and the stateful variants (`*_st`) thread the
store state explicitly so that absence of mutation is a provable statement
rather than a convention.

A load-bearing detail of the source is modelled exactly: the SELECT of
`list_rules` does not include the `message` column, while `evaluate_rules`
reads `r.message` off the listed row when a rule fires.  On a pandas
`itertuples()` row a missing field raises `AttributeError`, so evaluation
is fallible: it is embedded with result type `Except AttributeError`, and
the first fired rule aborts it with `AttributeError "message"` before any
hit can be appended.
-/

/-- ASCII uppercasing of a string, modelling the Python `str.upper()` call
applied to operator strings (`c.operator.upper()`); the operator strings
stored by this application are ASCII, where the two functions agree. -/
def py_upper (s : String) : String := String.mk (s.data.map Char.toUpper)

/-- A Python `AttributeError`, identified by the name of the missing
attribute.  Raised by `evaluate_rules` when it reads `r.message` off a row
of `list_rules`, whose SELECT does not include the `message` column. -/
structure AttributeError where
  attr : String
deriving DecidableEq

/-- A row of `dbo.userNodePreference` as read by `fetch_user_pref_map`:
one selected value per (user, data source, node). -/
structure UserNodePreferenceRow where
  userName : String
  dataSource : String
  pillarNode_id : Int
  pillarNodeValue_id : Int
deriving DecidableEq

/-- A row of the table `dbo.warningRule` itself: full rule metadata,
including the `message` column stored by `insert_rule`.  `dataSourceFilter`
is nullable; `dateAdded` is abstracted to an integer timestamp, used only
by the ORDER BY of `list_rules`. -/
structure WarningRuleRow where
  id : Int
  name : String
  message : String
  severity : String
  isActive : Bool
  dataSourceFilter : Option String
  dateAdded : Int
deriving DecidableEq

/-- A row as returned by the SELECT of `list_rules`, which projects
`r.id, r.name, r.severity, r.isActive, r.dataSourceFilter, r.dateAdded` —
and NOT `r.message`.  (The aggregated display-only `conditions` string
column is not used by evaluation and is omitted.)  The absence of a
`message` field here is what makes `evaluate_rules` raise. -/
structure ListedRuleRow where
  id : Int
  name : String
  severity : String
  isActive : Bool
  dataSourceFilter : Option String
  dateAdded : Int
deriving DecidableEq

/-- A row of `dbo.warningRuleCondition` as read by `fetch_rule_conditions`:
a node, an operator string and a nullable target value. -/
structure WarningRuleConditionRow where
  id : Int
  rule_id : Int
  pillarNode_id : Int
  operator : String
  pillarNodeValue_id : Option Int
deriving DecidableEq

/-- The database state visible to the evaluator: the three tables it
SELECTs from. -/
structure Store where
  userNodePreference : List UserNodePreferenceRow
  warningRule : List WarningRuleRow
  warningRuleCondition : List WarningRuleConditionRow
deriving DecidableEq

/-- The shape of the dict `evaluate_rules` tries to append for a fired
rule: id, name, severity and message.  Building it evaluates `r.message`,
which the listed row does not have, so in fact no hit is ever appended:
a successfully returned hit list is necessarily empty. -/
structure RuleHit where
  id : Int
  name : String
  severity : String
  message : String
deriving DecidableEq

/-- The projection performed by the SELECT list of `list_rules`: every
column of `dbo.warningRule` except `message` (plus the display-only
aggregate, omitted). -/
def listed (r : WarningRuleRow) : ListedRuleRow :=
  ⟨r.id, r.name, r.severity, r.isActive, r.dataSourceFilter, r.dateAdded⟩

/-- Insertion into a list sorted by `le`; auxiliary for `sort_by`. -/
def insert_sorted {α : Type} (le : α → α → Bool) (a : α) : List α → List α
  | [] => [a]
  | b :: bs => if le a b then a :: b :: bs else b :: insert_sorted le a bs

/-- Insertion sort by `le`, modelling a SQL ORDER BY.  Both ORDER BY
clauses used here end with the primary-key column `id`, so the sort keys
are all distinct and the ordered result is uniquely determined. -/
def sort_by {α : Type} (le : α → α → Bool) : List α → List α
  | [] => []
  | a :: as => insert_sorted le a (sort_by le as)

/-- The ORDER BY of `list_rules`: `r.dateAdded DESC, r.id DESC`. -/
def rule_order (a b : ListedRuleRow) : Bool :=
  b.dateAdded < a.dateAdded || (a.dateAdded == b.dateAdded && b.id ≤ a.id)

/-- The ORDER BY of `fetch_rule_conditions`: `c.id` ascending. -/
def cond_order (a b : WarningRuleConditionRow) : Bool :=
  a.id ≤ b.id

/-- The engine's preference snapshot, `fetch_user_pref_map`: SELECT the
rows of `dbo.userNodePreference` for the given user and data source and
build the dict from node to value.  A Python dict comprehension keeps the
last row for a duplicated key, so the row list is reversed and then read
with a first-match lookup (`List.lookup`); the table's unique key on
(user, data source, node) makes the key occur at most once anyway. -/
def fetch_user_pref_map (st : Store) (user_name data_source : String) :
    List (Int × Int) :=
  ((st.userNodePreference.filter
      (fun p => p.userName == user_name && p.dataSource == data_source)).map
    (fun p => (p.pillarNode_id, p.pillarNodeValue_id))).reverse

/-- The rule listing `list_rules`: every row of `dbo.warningRule` projected
by `listed` (no `message` column), ordered by `dateAdded DESC, id DESC`. -/
def list_rules (st : Store) : List ListedRuleRow :=
  sort_by rule_order (st.warningRule.map listed)

/-- The condition listing `fetch_rule_conditions`: the rows of
`dbo.warningRuleCondition` for one rule, ordered by `id` ascending.  (The
joined display columns `pillarNode` and `pillarNodeValue` are not used by
evaluation and are omitted; the join to `dbo.pillarNode` is an inner join
on a foreign key, assumed intact, so it neither drops nor adds rows.) -/
def fetch_rule_conditions (st : Store) (rid : Int) :
    List WarningRuleConditionRow :=
  sort_by cond_order (st.warningRuleCondition.filter (fun c => c.rule_id == rid))

/-- The scope guard `if r.dataSourceFilter and r.dataSourceFilter != data_source`
of `evaluate_rules`: the rule is skipped iff the filter is truthy in Python
(neither NULL nor the empty string) and differs from the queried source. -/
def ds_filter_skips (f : Option String) (data_source : String) : Bool :=
  match f with
  | none => false
  | some s => !(s == "") && s != data_source

/-- One iteration of the condition loop of `evaluate_rules`:
`val = prefs.get(node)` (None when absent), `op = c.operator.upper()`,
`target = c.pillarNodeValue_id` (None when NULL), then the operator
dispatch.  Python `==`/`!=` on optional ints is `BEq` on `Option Int`
(`None == None` is `True`, `v != None` is `True`). -/
def cond_match (prefs : List (Int × Int)) (c : WarningRuleConditionRow) : Bool :=
  let val := prefs.lookup c.pillarNode_id
  let op := py_upper c.operator
  let target := c.pillarNodeValue_id
  if op == "=" then val == target
  else if op == "!=" || op == "<>" then val == none || val != target
  else if op == "IS NULL" then val == none
  else if op == "IS NOT NULL" then val != none
  else false

/-- Stateful view of `fetch_user_pref_map`: its body is a single SELECT
inside `engine.begin()`, so it returns the store unchanged. -/
def fetch_user_pref_map_st (st : Store) (u ds : String) :
    List (Int × Int) × Store :=
  (fetch_user_pref_map st u ds, st)

/-- Stateful view of `list_rules`: a single SELECT, store unchanged. -/
def list_rules_st (st : Store) : List ListedRuleRow × Store :=
  (list_rules st, st)

/-- Stateful view of `fetch_rule_conditions`: a single SELECT, store
unchanged. -/
def fetch_rule_conditions_st (st : Store) (rid : Int) :
    List WarningRuleConditionRow × Store :=
  (fetch_rule_conditions st rid, st)

/-- The rule loop of `evaluate_rules`, with the store threaded explicitly
through each `fetch_rule_conditions` call.  The inner condition loop
(`ok &= …` with `break` once `ok` is false) computes exactly the
left-to-right short-circuit conjunction `List.all` of `cond_match`.  When a
rule fires, the appended dict evaluates `r.message` — an attribute the row
of `list_rules` does not have — so the loop aborts at the first fired rule
with `AttributeError "message"`, appending nothing; only if no rule fires
does the loop finish, with the hit list still empty. -/
def eval_loop (prefs : List (Int × Int)) (data_source : String) :
    List ListedRuleRow → Store → Except AttributeError (List RuleHit) × Store
  | [], st => (Except.ok [], st)
  | r :: rs, st =>
    if !r.isActive then eval_loop prefs data_source rs st
    else if ds_filter_skips r.dataSourceFilter data_source then
      eval_loop prefs data_source rs st
    else
      let p := fetch_rule_conditions_st st r.id
      if p.1.all (cond_match prefs) then
        (Except.error ⟨"message"⟩, p.2)
      else eval_loop prefs data_source rs p.2

/-- The engine `evaluate_rules` with explicit store state: fetch the
preference map, list the rules, run the rule loop.  Every store access on
this path is a SELECT; the transaction opened around the loop performs no
statement and a raised exception only rolls it back. -/
def evaluate_rules_st (st : Store) (user_name data_source : String) :
    Except AttributeError (List RuleHit) × Store :=
  let p1 := fetch_user_pref_map_st st user_name data_source
  let p2 := list_rules_st p1.2
  eval_loop p1.1 data_source p2.1 p2.2

/-- The result of `evaluate_rules`: either the returned hit list (the rows
of the returned data frame, in order — necessarily empty, since appending
a hit always raises first) or the propagated `AttributeError`. -/
def evaluate_rules (st : Store) (user_name data_source : String) :
    Except AttributeError (List RuleHit) :=
  (evaluate_rules_st st user_name data_source).1

/-- A listed rule "fires" when `evaluate_rules` reaches the append for it:
it is active, passes the scope guard, and all its conditions match.  The
first fired rule in listing order is where the `AttributeError` is raised;
evaluation succeeds (with an empty hit list) iff no rule fires. -/
def rule_fires (st : Store) (prefs : List (Int × Int)) (ds : String)
    (r : ListedRuleRow) : Bool :=
  r.isActive && !ds_filter_skips r.dataSourceFilter ds &&
    (fetch_rule_conditions st r.id).all (cond_match prefs)

/-- A store with one stored selection and one active unscoped rule whose
single condition is `!=` with a NULL target value. -/
def store_c3 : Store :=
  ⟨[⟨"u", "src", 10, 5⟩],
   [⟨1, "R1", "msg", "Warning", true, none, 0⟩],
   [⟨1, 1, 10, "!=", none⟩]⟩

/-- A store with one active unscoped rule and no conditions and no stored
selections. -/
def store_c4 : Store :=
  ⟨[], [⟨1, "R1", "msg", "Warning", true, none, 0⟩], []⟩

/-- A store with one inactive rule and nothing else: no rule can fire. -/
def store_c4b : Store :=
  ⟨[], [⟨1, "R1", "msg", "Warning", false, none, 0⟩], []⟩

/-- A store with one stored selection and one active rule scoped to the
data source `"src"`, with no conditions. -/
def store_c5 : Store :=
  ⟨[⟨"u", "src", 10, 5⟩],
   [⟨1, "R0", "m0", "Info", true, some "src", 0⟩],
   []⟩

/-- A store with one inactive rule and one active rule scoped to a
different data source: neither fires when evaluating for `"src"`. -/
def store_c6 : Store :=
  ⟨[],
   [⟨1, "R1", "m1", "Warning", false, none, 0⟩,
    ⟨2, "R2", "m2", "Error", true, some "other", 1⟩],
   []⟩

/-- A store with one active unscoped rule whose single condition carries
the lower-case operator string `"is null"`. -/
def store_c8 : Store :=
  ⟨[], [⟨1, "R1", "msg", "Warning", true, none, 0⟩], [⟨1, 1, 10, "is null", none⟩]⟩

/-- A store with two active unscoped rules: rule 1 with no conditions and
rule 2 with a single condition whose operator string is unrecognized. -/
def store_c8w : Store :=
  ⟨[],
   [⟨1, "R1", "m1", "Warning", true, none, 0⟩,
    ⟨2, "R2", "m2", "Warning", true, none, 1⟩],
   [⟨1, 2, 10, "FOO", none⟩]⟩

/-- Membership in an `insert_sorted` result is membership in the inputs. -/
lemma mem_insert_sorted {α : Type} (le : α → α → Bool) (a b : α) (l : List α) :
    b ∈ insert_sorted le a l ↔ b = a ∨ b ∈ l := by
  induction l with
  | nil => simp [insert_sorted]
  | cons c cs ih =>
    by_cases h : le a c = true
    · simp [insert_sorted, h]
    · simp only [insert_sorted, h]
      simp only [Bool.false_eq_true, if_false, List.mem_cons, ih]
      tauto

/-- Sorting does not change the members of a list. -/
lemma mem_sort_by {α : Type} (le : α → α → Bool) (b : α) (l : List α) :
    b ∈ sort_by le l ↔ b ∈ l := by
  induction l with
  | nil => simp [sort_by]
  | cons a as ih => simp [sort_by, mem_insert_sorted, ih]

/-- The rule loop leaves the store untouched and aborts with
`AttributeError "message"` exactly when some rule of the listing fires;
otherwise it returns the empty hit list. -/
lemma eval_loop_char (prefs : List (Int × Int)) (ds : String)
    (rules : List ListedRuleRow) (st : Store) :
    eval_loop prefs ds rules st =
      ((if rules.any (rule_fires st prefs ds) then
          Except.error ⟨"message"⟩
        else Except.ok []), st) := by
  induction rules with
  | nil => rfl
  | cons r rs ih =>
    by_cases hA : r.isActive = true
    · by_cases hS : ds_filter_skips r.dataSourceFilter ds = true
      · simp [eval_loop, rule_fires, fetch_rule_conditions_st, hA, hS, ih,
          List.any_cons]
      · by_cases hC : (fetch_rule_conditions st r.id).all (cond_match prefs) = true
        · simp [eval_loop, rule_fires, fetch_rule_conditions_st, hA, hS, hC, ih,
            List.any_cons]
        · simp [eval_loop, rule_fires, fetch_rule_conditions_st, hA, hS, hC, ih,
            List.any_cons]
    · simp [eval_loop, rule_fires, hA, ih, List.any_cons]

/-- Evaluation raises iff some listed rule fires, and otherwise returns the
empty hit list. -/
lemma evaluate_rules_char (st : Store) (u ds : String) :
    evaluate_rules st u ds =
      (if (list_rules st).any
          (rule_fires st (fetch_user_pref_map st u ds) ds) then
        Except.error ⟨"message"⟩
      else Except.ok []) := by
  simp [evaluate_rules, evaluate_rules_st, fetch_user_pref_map_st,
    list_rules_st, eval_loop_char]

/-- If a stored rule fires, evaluation raises `AttributeError "message"`. -/
lemma evaluate_error_of_fires (st : Store) (u ds : String)
    (r : WarningRuleRow) (hr : r ∈ st.warningRule)
    (hf : rule_fires st (fetch_user_pref_map st u ds) ds (listed r) = true) :
    evaluate_rules st u ds = Except.error ⟨"message"⟩ := by
  rw [evaluate_rules_char]
  have hany : (list_rules st).any
      (rule_fires st (fetch_user_pref_map st u ds) ds) = true := by
    rw [List.any_eq_true]
    refine ⟨listed r, ?_, hf⟩
    rw [list_rules, mem_sort_by]
    exact List.mem_map.mpr ⟨r, hr, rfl⟩
  simp [hany]

/-- A successfully returned hit list is empty: the first fired rule would
have raised before appending anything. -/
lemma evaluate_ok_nil (st : Store) (u ds : String) (hits : List RuleHit)
    (hok : evaluate_rules st u ds = Except.ok hits) : hits = [] := by
  rw [evaluate_rules_char] at hok
  by_cases h : (list_rules st).any
      (rule_fires st (fetch_user_pref_map st u ds) ds) = true
  · simp [h] at hok
  · simp [h] at hok
    exact hok

/-- The scope guard passes exactly for an unset, blank, or matching
data-source filter. -/
lemma ds_filter_skips_eq_false_iff (f : Option String) (ds : String) :
    ds_filter_skips f ds = false ↔
      f = none ∨ f = some "" ∨ f = some ds := by
  cases f with
  | none => simp [ds_filter_skips]
  | some s =>
    by_cases hs : s = "" <;> by_cases hd : s = ds <;>
      simp [ds_filter_skips, hs, hd]

/-- A rule with no condition rows has an empty ordered condition list. -/
lemma fetch_rule_conditions_eq_nil (st : Store) (rid : Int)
    (hconds : st.warningRuleCondition.filter (fun c => c.rule_id == rid) = []) :
    fetch_rule_conditions st rid = [] := by
  simp [fetch_rule_conditions, hconds, sort_by]

/-- A condition whose uppercased operator is none of the five recognized
strings falls into the final `else` branch and never matches. -/
lemma cond_match_unknown_op (prefs : List (Int × Int))
    (c : WarningRuleConditionRow)
    (hop : py_upper c.operator ∉
      (["=", "!=", "<>", "IS NULL", "IS NOT NULL"] : List String)) :
    cond_match prefs c = false := by
  simp only [List.mem_cons, List.not_mem_nil, or_false, not_or] at hop
  obtain ⟨h1, h2, h3, h4, h5⟩ := hop
  simp [cond_match, beq_iff_eq, h1, h2, h3, h4, h5]

/-- C1: a condition with operator `!=` (or `<>`) and a present target value
`V` matches exactly when the user's stored selection for the condition's
node is absent or is a value other than `V`; equivalently, it fails to
match exactly when the stored selection equals `V`. -/
theorem neq_operator_permissive (prefs : List (Int × Int))
    (c : WarningRuleConditionRow) (V : Int)
    (hop : c.operator = "!=" ∨ c.operator = "<>")
    (htgt : c.pillarNodeValue_id = some V) :
    cond_match prefs c = true ↔
      (prefs.lookup c.pillarNode_id = none ∨
        ∃ w, prefs.lookup c.pillarNode_id = some w ∧ w ≠ V) := by
  rcases hop with hop | hop <;>
    cases hval : prefs.lookup c.pillarNode_id <;>
      simp +decide [cond_match, hop, htgt, hval, py_upper]

theorem neq_operator_permissive_witness :
    cond_match [((10 : Int), (5 : Int))] ⟨1, 1, 10, "!=", some 7⟩ = true ↔
      (([((10 : Int), (5 : Int))] : List (Int × Int)).lookup 10 = none ∨
        ∃ w, ([((10 : Int), (5 : Int))] : List (Int × Int)).lookup 10 = some w ∧
          w ≠ 7) :=
  neq_operator_permissive [(10, 5)] ⟨1, 1, 10, "!=", some 7⟩ 7 (Or.inl rfl) rfl

/-- C2 counterexample: a `=` condition whose recorded target value is NULL
matches a user with no stored selection for the node (Python evaluates
`None == None` to `True`), so absence of a selection does match `=` for an
absent target, contrary to the claim. -/
theorem eq_operator_matches_absent_on_null_target :
    cond_match [] ⟨1, 1, 10, "=", none⟩ = true := by decide

/-- C2 (amended): a `=` condition matches exactly when the optional stored
selection coincides with the optional recorded target: for a present
target value it matches exactly the equal stored selection (absence never
matches), and for an absent (NULL) target it matches exactly the absence
of a selection. -/
theorem eq_operator_semantics (prefs : List (Int × Int))
    (c : WarningRuleConditionRow) (hop : c.operator = "=") :
    cond_match prefs c = true ↔
      prefs.lookup c.pillarNode_id = c.pillarNodeValue_id := by
  simp +decide [cond_match, hop, py_upper]

theorem eq_operator_semantics_witness :
    cond_match [((10 : Int), (5 : Int))] ⟨1, 1, 10, "=", some 5⟩ = true ↔
      ([((10 : Int), (5 : Int))] : List (Int × Int)).lookup 10 = some 5 :=
  eq_operator_semantics [(10, 5)] ⟨1, 1, 10, "=", some 5⟩ rfl

/-- C3 counterexample: a condition that is malformed (`!=` with no recorded
target value) is a match — here even for a user who has a stored selection
for the node — so the rule containing it fires, and the evaluation then
raises `AttributeError "message"` (the listing has no `message` column)
rather than proceeding without error. -/
theorem malformed_neq_rule_fires :
    cond_match [((10 : Int), (5 : Int))] ⟨1, 1, 10, "!=", none⟩ = true ∧
    evaluate_rules store_c3 "u" "src" = Except.error ⟨"message"⟩ :=
  ⟨by decide, rfl⟩

/-- C3 (amended): a condition with operator `=`/`!=`/`<>` and no recorded
target value is evaluated without error, but it is not uniformly a
non-match: `=` with a NULL target matches exactly when no selection is
stored for the node, and `!=`/`<>` with a NULL target always matches. -/
theorem malformed_condition_semantics (prefs : List (Int × Int))
    (c : WarningRuleConditionRow) (htgt : c.pillarNodeValue_id = none) :
    (c.operator = "=" →
      (cond_match prefs c = true ↔ prefs.lookup c.pillarNode_id = none)) ∧
    ((c.operator = "!=" ∨ c.operator = "<>") → cond_match prefs c = true) := by
  constructor
  · intro hop
    simp +decide [cond_match, hop, htgt, py_upper]
  · rintro (hop | hop) <;>
      cases hval : prefs.lookup c.pillarNode_id <;>
        simp +decide [cond_match, hop, htgt, hval, py_upper]

theorem malformed_condition_semantics_witness :
    cond_match ([] : List (Int × Int)) ⟨1, 1, 10, "=", none⟩ = true ↔
      ([] : List (Int × Int)).lookup 10 = none :=
  (malformed_condition_semantics [] ⟨1, 1, 10, "=", none⟩ rfl).1 rfl

/-- C4 counterexample: called with empty `user` and `dataSource` arguments,
`evaluate_rules` raises no `InvalidInput`: evaluation runs in full — when a
rule fires it raises the `AttributeError` of the message-column bug (so
rule evaluation certainly happened), and when no rule fires it returns the
empty hit list. -/
theorem empty_arguments_still_evaluate :
    evaluate_rules store_c4 "" "" = Except.error ⟨"message"⟩ ∧
    evaluate_rules store_c4b "" "" = Except.ok [] :=
  ⟨rfl, rfl⟩

/-- C4 (amended): `evaluate_rules` performs no validation of its
arguments: with empty user and data source the ordinary algorithm runs —
it returns the empty hit list when no rule fires for the empty-user
preference map, and raises `AttributeError "message"` at the first fired
rule; no `InvalidInput` error exists on any path. -/
theorem empty_arguments_no_validation (st : Store) :
    evaluate_rules st "" "" =
      (if (list_rules st).any
          (rule_fires st (fetch_user_pref_map st "" "") "") then
        Except.error ⟨"message"⟩
      else Except.ok []) :=
  evaluate_rules_char st "" ""

/-- C5 (code bug): the spec requires an active, in-scope rule with an empty
condition list to be included in the returned hit list, and the code
plainly intends to append it — but the SELECT of `list_rules` omits the
`message` column that the append reads, so evaluation raises
`AttributeError "message"` instead of returning any hit list whenever such
a rule exists. -/
theorem empty_condition_rule_crashes (st : Store) (u ds : String)
    (r : WarningRuleRow) (hr : r ∈ st.warningRule) (hact : r.isActive = true)
    (hscope : r.dataSourceFilter = none ∨ r.dataSourceFilter = some "" ∨
      r.dataSourceFilter = some ds)
    (hconds : st.warningRuleCondition.filter (fun c => c.rule_id == r.id) = []) :
    evaluate_rules st u ds = Except.error ⟨"message"⟩ := by
  apply evaluate_error_of_fires st u ds r hr
  have h1 : ds_filter_skips r.dataSourceFilter ds = false :=
    (ds_filter_skips_eq_false_iff _ _).mpr hscope
  have h2 : fetch_rule_conditions st r.id = [] :=
    fetch_rule_conditions_eq_nil st r.id hconds
  simp [rule_fires, listed, hact, h1, h2]

theorem empty_condition_rule_crashes_witness :
    evaluate_rules store_c5 "u" "src" = Except.error ⟨"message"⟩ :=
  empty_condition_rule_crashes store_c5 "u" "src"
    ⟨1, "R0", "m0", "Info", true, some "src", 0⟩ (by decide) rfl
    (Or.inr (Or.inr rfl)) rfl

/-- C6: a successfully returned hit list is always empty, so no rule — in
particular no inactive rule and no rule filtered to a different data
source — ever appears in one; moreover an inactive or out-of-scope rule
never fires at all (it cannot even be the rule that triggers the
`AttributeError`), and a blank or unset data-source filter passes the
scope guard for every data source. -/
theorem inactive_or_out_of_scope_never_appears (st : Store) (u ds : String)
    (hits : List RuleHit) (r : ListedRuleRow) (f : Option String) (ds2 : String)
    (hok : evaluate_rules st u ds = Except.ok hits)
    (hr : r.isActive = false ∨ ds_filter_skips r.dataSourceFilter ds = true)
    (hf : f = none ∨ f = some "") :
    hits = [] ∧
    rule_fires st (fetch_user_pref_map st u ds) ds r = false ∧
    ds_filter_skips f ds2 = false := by
  refine ⟨evaluate_ok_nil st u ds hits hok, ?_, ?_⟩
  · rcases hr with hr | hr <;> simp [rule_fires, hr]
  · rcases hf with hf | hf <;> simp [ds_filter_skips, hf]

theorem inactive_or_out_of_scope_never_appears_witness :
    ([] : List RuleHit) = [] ∧
    rule_fires store_c6 (fetch_user_pref_map store_c6 "u" "src") "src"
      ⟨1, "R1", "Warning", false, none, 0⟩ = false ∧
    ds_filter_skips (some "") "whatever" = false :=
  inactive_or_out_of_scope_never_appears store_c6 "u" "src" []
    ⟨1, "R1", "Warning", false, none, 0⟩ (some "") "whatever"
    rfl (Or.inl rfl) (Or.inr rfl)

/-- C7: for every preference state and node, `IS NULL` matches exactly when
no selection is stored for the node, `IS NOT NULL` matches exactly when one
is, and the two conditions are exact complements: precisely one of them
matches. -/
theorem is_null_is_not_null_complement (prefs : List (Int × Int))
    (i j ri rj node : Int) (t1 t2 : Option Int) :
    (cond_match prefs ⟨i, ri, node, "IS NULL", t1⟩ = true ↔
      prefs.lookup node = none) ∧
    (cond_match prefs ⟨j, rj, node, "IS NOT NULL", t2⟩ = true ↔
      prefs.lookup node ≠ none) ∧
    cond_match prefs ⟨i, ri, node, "IS NULL", t1⟩ =
      !cond_match prefs ⟨j, rj, node, "IS NOT NULL", t2⟩ := by
  cases hval : prefs.lookup node <;>
    simp +decide [cond_match, hval, py_upper]

/-- C8 counterexample: the stored operator string `"is null"` is not one of
the five literal strings `=`, `!=`, `<>`, `IS NULL`, `IS NOT NULL`, yet the
rule carrying it does not fail to match: the code uppercases the operator
before the dispatch, the condition matches, the rule fires, and evaluation
raises `AttributeError "message"` — so the rule neither fails to match nor
is evaluation error-free. -/
theorem lowercase_operator_rule_fires :
    ("is null" ∉ (["=", "!=", "<>", "IS NULL", "IS NOT NULL"] : List String)) ∧
    evaluate_rules store_c8 "u" "src" = Except.error ⟨"message"⟩ :=
  ⟨by decide, rfl⟩

/-- C8 (amended): a condition whose UPPERCASED operator string is not one
of `=`, `!=`, `<>`, `IS NULL`, `IS NOT NULL` never matches — condition
evaluation is total, raising nothing for the unrecognized operator — so the
rule containing it never fires: it neither appears in a returned
(necessarily empty) hit list nor triggers the `AttributeError` of the
message-column bug. -/
theorem unknown_operator_rule_never_fires (st : Store)
    (prefs : List (Int × Int)) (ds : String) (r : ListedRuleRow)
    (c : WarningRuleConditionRow)
    (hc : c ∈ fetch_rule_conditions st r.id)
    (hop : py_upper c.operator ∉
      (["=", "!=", "<>", "IS NULL", "IS NOT NULL"] : List String)) :
    cond_match prefs c = false ∧ rule_fires st prefs ds r = false := by
  have hcm := cond_match_unknown_op prefs c hop
  refine ⟨hcm, ?_⟩
  have hall : (fetch_rule_conditions st r.id).all (cond_match prefs) = false := by
    cases hA : (fetch_rule_conditions st r.id).all (cond_match prefs)
    · rfl
    · rw [List.all_eq_true] at hA
      have hcc := hA c hc
      rw [hcm] at hcc
      simp at hcc
  simp [rule_fires, hall]

theorem unknown_operator_rule_never_fires_witness :
    cond_match ([] : List (Int × Int)) ⟨1, 2, 10, "FOO", none⟩ = false ∧
    rule_fires store_c8w [] "src" ⟨2, "R2", "Warning", true, none, 1⟩ = false :=
  unknown_operator_rule_never_fires store_c8w [] "src"
    ⟨2, "R2", "Warning", true, none, 1⟩ ⟨1, 2, 10, "FOO", none⟩
    (by decide) (by decide)

/-- C9: evaluation mutates no store state — the store threaded through
`evaluate_rules_st` comes back unchanged on the success path and on the
`AttributeError` path alike — and re-evaluating the same user and data
source on the state left by the first call returns the identical result:
the same `AttributeError` when a rule fires, or the same (necessarily
empty) hit list when none does. -/
theorem evaluate_rules_no_mutation_idempotent (st : Store) (u ds : String) :
    (evaluate_rules_st st u ds).2 = st ∧
    (evaluate_rules_st (evaluate_rules_st st u ds).2 u ds).1 =
      (evaluate_rules_st st u ds).1 := by
  have h2 : (evaluate_rules_st st u ds).2 = st := by
    simp [evaluate_rules_st, fetch_user_pref_map_st, list_rules_st,
      eval_loop_char]
  exact ⟨h2, by rw [h2]⟩

/-- C10: the condition dispatch reads the operator string only through its
uppercasing (the code's `c.operator.upper()`), so any two spellings with
the same uppercase form are evaluated identically; moreover the lower- and
mixed-case spellings `"is null"` and `"Is Not Null"` are evaluated as the
NULL-check operators — they match below, where the unknown-operator branch
would return false. -/
theorem operator_case_insensitive_matching (prefs : List (Int × Int))
    (c : WarningRuleConditionRow) (op2 : String)
    (hop : py_upper op2 = py_upper c.operator) :
    cond_match prefs { c with operator := op2 } = cond_match prefs c ∧
    cond_match [] ⟨1, 1, 10, "is null", none⟩ = true ∧
    cond_match [((10 : Int), (5 : Int))] ⟨1, 1, 10, "Is Not Null", none⟩ = true := by
  refine ⟨?_, by decide, by decide⟩
  simp [cond_match, hop]

theorem operator_case_insensitive_matching_witness :
    cond_match ([] : List (Int × Int)) ⟨1, 1, 10, "is null", none⟩ =
      cond_match ([] : List (Int × Int)) ⟨1, 1, 10, "IS NULL", none⟩ ∧
    cond_match [] ⟨1, 1, 10, "is null", none⟩ = true ∧
    cond_match [((10 : Int), (5 : Int))] ⟨1, 1, 10, "Is Not Null", none⟩ = true :=
  operator_case_insensitive_matching [] ⟨1, 1, 10, "IS NULL", none⟩ "is null"
    (by decide)
